import Mathlib

/-!
Verification development for the view-once media pipeline of the repository
(files src/new/viewonce.js and src/new/config.js).

The JavaScript code is shallowly embedded as pure Lean functions:
media bytes are lists of naturals, external effects (media download,
the ffmpeg child process, filesystem writes, message sends) are supplied
through an explicit effect record, and the externally observable actions
of a run (files created or removed, bytes written, messages sent) are
returned as an explicit trace.  Date.now() is modelled by a natural
number parameter supplied by the caller.
-/

namespace VO

/-! ## Small JavaScript helpers -/

/-- JavaScript truthiness-based defaulting for a string expression,
    s or d: the empty string is falsy, so it is replaced by the default. -/
def strOrS (s d : String) : String :=
  if s = "" then d else s

/-- JavaScript o or d for an optional string field: an absent field
    (undefined) and the empty string are both falsy. -/
def strOr (o : Option String) (d : String) : String :=
  match o with
  | none => d
  | some s => if s = "" then d else s

/-- Substring test on character lists: true when pat occurs as a
    contiguous infix.  Mirrors a JavaScript regular-expression test for a
    plain literal pattern. -/
def listContainsSub (pat : List Char) : List Char → Bool
  | [] => pat.isPrefixOf []
  | c :: rest => pat.isPrefixOf (c :: rest) || listContainsSub pat rest

/-- The test performed by the source on an audio MIME type, checking the
    regular expression for the literal ogg against the string. -/
def containsOgg (s : String) : Bool :=
  listContainsSub "ogg".toList s.toList

/-- file.startsWith of the fixed temp-artifact marker viewonce_ used by
    cleanTempDirectory. -/
def startsWithVO (name : String) : Bool :=
  "viewonce_".toList.isPrefixOf name.toList

/-! ## JSON values and the configuration store (src/new/config.js) -/

/-- A JSON value, as held by the configuration store.  Objects are
    association lists with string keys, in insertion order.  Arrays are
    not needed by any claim and are omitted from the embedding. -/
inductive JVal where
  | jnull
  | jbool (b : Bool)
  | jnum (n : Int)
  | jstr (s : String)
  | jobj (fields : List (String × JVal))

/-- Property read obj[k] together with the membership test k in obj:
    first matching key wins (keys of a JavaScript object are unique). -/
def lookupField : List (String × JVal) → String → Option JVal
  | [], _ => none
  | (k0, v0) :: rest, k => if k0 = k then some v0 else lookupField rest k

/-- Property assignment obj[k] = v: replaces the value of an existing key
    in place, otherwise appends the new key at the end. -/
def putField : List (String × JVal) → String → JVal → List (String × JVal)
  | [], k, v => [(k, v)]
  | (k0, v0) :: rest, k, v =>
    if k0 = k then (k0, v) :: rest else (k0, v0) :: putField rest k v

/-- key.split for the dot separator, accumulator version over the
    character list. -/
def splitDotAux : List Char → List Char → List String
  | [], acc => [String.mk acc.reverse]
  | c :: rest, acc =>
    if c = '.' then String.mk acc.reverse :: splitDotAux rest []
    else splitDotAux rest (c :: acc)

/-- key.split of a dotted path into its segments, as done by Config.get,
    Config.set and Config.delete. -/
def splitDot (s : String) : List String :=
  splitDotAux s.toList []

/-- The walk of Config.get over the segment list.  At each step the code
    requires value to be truthy, of object type, and to contain the key;
    null has object type in JavaScript but is falsy, so only a proper
    object descends.  Returns none exactly when the code would return the
    default value. -/
def getLoop : JVal → List String → Option JVal
  | v, [] => some v
  | JVal.jobj fs, k :: rest =>
    match lookupField fs k with
    | some v2 => getLoop v2 rest
    | none => none
  | _, _ :: _ => none

/-- Config.get key default: walk the dotted path, returning the stored
    value, or the default when the walk fails. -/
def configGet (cfg : JVal) (key : String) (dflt : JVal) : JVal :=
  match getLoop cfg (splitDot key) with
  | some v => v
  | none => dflt

/-- The intermediate-step rule of Config.set: a key holding an object
    descends into it, a key holding null is kept as null (typeof null is
    object in JavaScript), and an absent key or one holding a non-object
    value is replaced by a fresh empty object. -/
def childFor (fs : List (String × JVal)) (k : String) : JVal :=
  match lookupField fs k with
  | some (JVal.jobj cfs) => JVal.jobj cfs
  | some JVal.jnull => JVal.jnull
  | _ => JVal.jobj []

/-- The walk of Config.set over the segment list.  Descends per childFor;
    a null intermediate makes the next access throw a TypeError, modelled
    as none.  The source mutates in place; the embedding rebuilds the
    spine functionally. -/
def setLoop : JVal → List String → JVal → Option JVal
  | JVal.jobj fs, [k], value => some (JVal.jobj (putField fs k value))
  | JVal.jobj fs, k :: k2 :: rest, value =>
    (match setLoop (childFor fs k) (k2 :: rest) value with
     | some child2 => some (JVal.jobj (putField fs k child2))
     | none => none)
  | _, _, _ => none

/-- Boolean presence of a dotted path in the nested mapping: every
    segment must be a key of a proper object along the walk. -/
def pathPresent : JVal → List String → Bool
  | _, [] => true
  | JVal.jobj fs, k :: rest =>
    (match lookupField fs k with
     | some v2 => pathPresent v2 rest
     | none => false)
  | _, _ :: _ => false

/-- The configuration store: the in-memory mapping plus the last mapping
    written to the backing JSON file (none before the first save). -/
structure ConfigStore where
  data : JVal
  disk : Option JVal

/-- Config.set key value: walk and assign, then saveConfig.  saveConfig
    wraps the file write in a try/catch that swallows the error, so a
    failed backing write (writeOk false) leaves the backing file as it
    was while the in-memory mapping is still updated; the set call
    completes either way.  Returns none when the JavaScript walk would
    throw on a null intermediate. -/
def configSet (store : ConfigStore) (key : String) (value : JVal)
    (writeOk : Bool) : Option ConfigStore :=
  match setLoop store.data (splitDot key) value with
  | some d2 =>
    some { data := d2, disk := if writeOk then some d2 else store.disk }
  | none => none

/-- JavaScript truthiness of a configuration value, as applied by the
    module at its use sites. -/
def truthy : JVal → Bool
  | JVal.jnull => false
  | JVal.jbool b => b
  | JVal.jnum n => n != 0
  | JVal.jstr s => s != ""
  | JVal.jobj _ => true

/-- Projection of a configuration value used as a string (the temp
    directory path). -/
def asStr : JVal → String
  | JVal.jstr s => s
  | _ => ""

/-- Projection of a configuration value used as a number of
    milliseconds. -/
def asNat : JVal → Nat
  | JVal.jnum n => n.toNat
  | _ => 0

/-! ## Inbound message shape -/

/-- A media node (imageMessage, videoMessage or audioMessage) as read by
    the module: the viewOnce flag and the optional mimetype and caption
    fields.  An absent viewOnce field is falsy and is modelled as false. -/
structure MediaNode where
  viewOnce : Bool
  mimetype : Option String
  caption : Option String
deriving DecidableEq, Repr

/-- The content union of an inbound envelope.  The three direct media
    nodes are the fields the module reads; the three wrapper fields
    record whether the corresponding wrapper node (viewOnceMessage,
    viewOnceMessageV2, viewOnceMessageV2Extension) is present on the
    wire.  The code of src/new/viewonce.js never reads the wrapper
    fields. -/
structure MessageContent where
  imageMessage : Option MediaNode
  videoMessage : Option MediaNode
  audioMessage : Option MediaNode
  viewOnceMessage : Bool
  viewOnceMessageV2 : Bool
  viewOnceMessageV2Extension : Bool
deriving DecidableEq, Repr

/-- The key of an inbound envelope: the conversation identifier and the
    optional group participant. -/
structure MsgKey where
  remoteJid : String
  participant : Option String
deriving DecidableEq, Repr

/-- An inbound envelope: key plus optional content union. -/
structure Msg where
  key : MsgKey
  message : Option MessageContent
deriving DecidableEq, Repr

/-! ## Pipeline data -/

/-- The media payload assembled by downloadViewOnceMedia. -/
structure MediaData where
  type : String
  buffer : List Nat
  mimetype : String
  caption : String
  filename : String
deriving DecidableEq, Repr

/-- The statistics counters of the module. -/
structure Stats where
  processed : Nat
  forwarded : Nat
  saved : Nat
  errors : Nat
deriving DecidableEq, Repr

/-- The module configuration assembled in the constructor of
    ViewOnceModule (src/new/viewonce.js lines 24 to 32). -/
structure VOConfig where
  autoForward : Bool
  saveToTemp : Bool
  tempDir : String
  skipOwner : Bool
  logActivity : Bool
  maxTempAge : Nat
  supportedTypes : List String
deriving DecidableEq, Repr

/-- The result object returned by processViewOnce on the success path.
    The code returns undefined on the silent-abort paths, modelled by an
    outer Option. -/
structure PipelineResult where
  success : Bool
  mediaData : Option MediaData
  savedPath : Option String
  forwarded : Bool
  errorMessage : Option String
  timestamp : Nat
deriving DecidableEq, Repr

/-- The transport send payload built by forwardViewOnce, keyed by media
    kind. -/
inductive OutContent where
  | image (bytes : List Nat) (caption : String) (mimetype : String)
  | video (bytes : List Nat) (caption : String) (mimetype : String)
  | audio (bytes : List Nat) (mimetype : String)
deriving DecidableEq, Repr

/-- An externally observable action performed by a pipeline run. -/
inductive Action where
  | createFile (path : String) (bytes : List Nat)
  | execFfmpeg (input output : String)
  | removeFile (path : String)
  | wroteTemp (path : String) (bytes : List Nat)
  | sentMessage (chatId : String) (content : OutContent)
deriving DecidableEq, Repr

/-- Outcomes of the external effects consumed by one pipeline run.
    downloadResult models bot.sock.downloadMediaMessage (a thrown error,
    a null buffer, or bytes); execErr models the exit status of the
    ffmpeg child process as a function of the input file bytes; readBack
    models the read of the output file produced for those input bytes;
    writeTempOk models the file write of saveToTemp; sendErr models
    bot.sock.sendMessage. -/
structure RunEff where
  downloadResult : Except String (Option (List Nat))
  execErr : List Nat → Option String
  readBack : List Nat → Except String (List Nat)
  writeTempOk : Bool
  sendErr : Option String

/-! ## The module functions (src/new/viewonce.js) -/

/-- Truthiness of node and node.viewOnce for an optional media node, as
    in the optional-chaining reads of the source. -/
def nodeVO : Option MediaNode → Bool
  | some n => n.viewOnce
  | none => false

/-- isViewOnceMessage (lines 111 to 120): false for a null message or an
    envelope without content, else true when any of the three direct
    media nodes carries a true viewOnce flag. -/
def isViewOnceMessage (m : Option Msg) : Bool :=
  match m with
  | none => false
  | some msg =>
    match msg.message with
    | none => false
    | some c =>
      nodeVO c.imageMessage || nodeVO c.videoMessage || nodeVO c.audioMessage

/-- getViewOnceType (lines 127 to 136): the first of image, video, audio
    whose direct node carries a true viewOnce flag. -/
def getViewOnceType (m : Option Msg) : Option String :=
  match m with
  | none => none
  | some msg =>
    match msg.message with
    | none => none
    | some c =>
      if nodeVO c.imageMessage then some "image"
      else if nodeVO c.videoMessage then some "video"
      else if nodeVO c.audioMessage then some "audio"
      else none

/-- The fixed extension table of generateFilename. -/
def extFor : String → Option String
  | "image/jpeg" => some "jpg"
  | "image/png" => some "png"
  | "image/webp" => some "webp"
  | "video/mp4" => some "mp4"
  | "video/3gpp" => some "3gp"
  | "audio/mp4" => some "mp3"
  | "audio/ogg" => some "ogg"
  | "audio/mpeg" => some "mp3"
  | _ => none

/-- generateFilename (lines 484 to 499): type, an underscore, the current
    timestamp, a dot, and the table extension for the MIME type, falling
    back to the type name for an unknown or absent MIME type. -/
def generateFilename (type : String) (mimetype : Option String) (now : Nat) :
    String :=
  let ext :=
    match mimetype with
    | some m => (extFor m).getD type
    | none => type
  type ++ "_" ++ toString now ++ "." ++ ext

/-- The media node selected by the computed property read
    msg.message[type + Message]. -/
def mediaNodeFor (c : MessageContent) (type : String) : Option MediaNode :=
  if type = "image" then c.imageMessage
  else if type = "video" then c.videoMessage
  else if type = "audio" then c.audioMessage
  else none

/-- downloadViewOnceMedia (lines 143 to 166): classify the type, reselect
    the media node, download the bytes through the chat client, and
    assemble the payload.  A thrown download error is caught and, like a
    null buffer or a failed classification, yields null. -/
def downloadViewOnceMedia (m : Option Msg) (eff : RunEff) (now : Nat) :
    Option MediaData :=
  match getViewOnceType m with
  | none => none
  | some type =>
    match m with
    | none => none
    | some msg =>
      match msg.message with
      | none => none
      | some c =>
        match mediaNodeFor c type with
        | none => none
        | some mm =>
          match eff.downloadResult with
          | Except.error _ => none
          | Except.ok none => none
          | Except.ok (some buffer) =>
            some { type := type
                   buffer := buffer
                   mimetype := strOr mm.mimetype (type ++ "/unknown")
                   caption := strOr mm.caption ""
                   filename := generateFilename type mm.mimetype now }

/-- The scoped input file path used by processAudioViewOnce. -/
def inputPathOf (now : Nat) : String :=
  "/tmp/input_" ++ toString now ++ ".ogg"

/-- The scoped output file path used by processAudioViewOnce. -/
def outputPathOf (now : Nat) : String :=
  "/tmp/output_" ++ toString now ++ ".mp3"

/-- processAudioViewOnce (lines 257 to 289).  For an ogg MIME type: write
    the input file, run ffmpeg, remove the input file in the process
    callback, then on process success read the output file back and
    remove it; a process error or a failed read rejects after the input
    file was removed, without removing the output file.  Any other MIME
    type resolves with the input bytes unchanged.  The function returns
    the promise outcome together with the filesystem action trace. -/
def processAudioViewOnce (audioBuffer : List Nat) (mimetype : String)
    (eff : RunEff) (now : Nat) : Except String (List Nat) × List Action :=
  if containsOgg mimetype then
    let inputPath := inputPathOf now
    let outputPath := outputPathOf now
    match eff.execErr audioBuffer with
    | some e =>
      (Except.error e,
       [Action.createFile inputPath audioBuffer,
        Action.execFfmpeg inputPath outputPath,
        Action.removeFile inputPath])
    | none =>
      match eff.readBack audioBuffer with
      | Except.error e =>
        (Except.error e,
         [Action.createFile inputPath audioBuffer,
          Action.execFfmpeg inputPath outputPath,
          Action.removeFile inputPath])
      | Except.ok convertedBuffer =>
        (Except.ok convertedBuffer,
         [Action.createFile inputPath audioBuffer,
          Action.execFfmpeg inputPath outputPath,
          Action.removeFile inputPath,
          Action.removeFile outputPath])
  else (Except.ok audioBuffer, [])

/-- saveToTemp (lines 174 to 189): build the filename from the fixed
    marker viewonce_, the current timestamp and the payload filename,
    join it to the configured temp directory, and write the bytes.  The
    chatId parameter is accepted but never used by the source.  On write
    success the saved counter is incremented and the path returned; a
    thrown write error is caught and yields null. -/
def saveToTemp (md : MediaData) (chatId : String) (cfg : VOConfig)
    (eff : RunEff) (now : Nat) (stats : Stats) :
    Option String × Stats × List Action :=
  let filename := "viewonce_" ++ toString now ++ "_" ++ md.filename
  let filepath := cfg.tempDir ++ "/" ++ filename
  if eff.writeTempOk then
    (some filepath, { stats with saved := stats.saved + 1 },
     [Action.wroteTemp filepath md.buffer])
  else (none, stats, [])

/-- forwardViewOnce (lines 197 to 249): build the send payload keyed by
    media type (image and video carry the bytes, the caption or a default
    caption, and the MIME type; audio first runs processAudioViewOnce,
    falling back to the original bytes when it rejects, and carries the
    bytes and the MIME type or a generic default), then send it to the
    originating conversation.  An unsupported type returns false without
    sending.  A send error is caught, counted in the error statistic and
    converted to false. -/
def forwardViewOnce (msg : Msg) (md : MediaData) (eff : RunEff) (now : Nat)
    (stats : Stats) : Bool × Stats × List Action :=
  let chatId := msg.key.remoteJid
  let built : Option (OutContent × List Action) :=
    if md.type = "image" then
      some (OutContent.image md.buffer
              (strOrS md.caption "👁️ ViewOnce Image Revealed") md.mimetype, [])
    else if md.type = "video" then
      some (OutContent.video md.buffer
              (strOrS md.caption "👁️ ViewOnce Video Revealed") md.mimetype, [])
    else if md.type = "audio" then
      let step := processAudioViewOnce md.buffer md.mimetype eff now
      let audioBuffer :=
        match step.1 with
        | Except.ok b => b
        | Except.error _ => md.buffer
      some (OutContent.audio audioBuffer (strOrS md.mimetype "audio/mp4"),
            step.2)
    else none
  match built with
  | none => (false, stats, [])
  | some (content, acts) =>
    match eff.sendErr with
    | none =>
      (true, { stats with forwarded := stats.forwarded + 1 },
       acts ++ [Action.sentMessage chatId content])
    | some _ =>
      (false, { stats with errors := stats.errors + 1 }, acts)

/-- processViewOnce (lines 312 to 358): silently return when the envelope
    is not view-once or the download yields null; otherwise transcode
    audio (keeping the original bytes when the transcode rejects), save
    to temp when enabled, forward when enabled, increment the processed
    counter and return the success result.  Returns the optional result,
    the updated counters and the action trace of the run. -/
def processViewOnce (m : Option Msg) (cfg : VOConfig) (eff : RunEff)
    (now : Nat) (stats : Stats) :
    Option PipelineResult × Stats × List Action :=
  if isViewOnceMessage m = false then (none, stats, [])
  else
    match m with
    | none => (none, stats, [])
    | some msg =>
      match downloadViewOnceMedia m eff now with
      | none => (none, stats, [])
      | some md0 =>
        let step :=
          if md0.type = "audio" then
            match processAudioViewOnce md0.buffer md0.mimetype eff now with
            | (Except.ok b, a) => ({ md0 with buffer := b }, a)
            | (Except.error _, a) => (md0, a)
          else (md0, [])
        let md := step.1
        let acts1 := step.2
        let chatId := msg.key.remoteJid
        let saveStep :=
          if cfg.saveToTemp then saveToTemp md chatId cfg eff now stats
          else (none, stats, [])
        let savedPath := saveStep.1
        let stats1 := saveStep.2.1
        let acts2 := saveStep.2.2
        let fwdStep :=
          if cfg.autoForward then forwardViewOnce msg md eff now stats1
          else (false, stats1, [])
        let forwarded := fwdStep.1
        let stats2 := fwdStep.2.1
        let acts3 := fwdStep.2.2
        (some { success := true
                mediaData := some md
                savedPath := savedPath
                forwarded := forwarded
                errorMessage := none
                timestamp := now },
         { stats2 with processed := stats2.processed + 1 },
         acts1 ++ acts2 ++ acts3)

/-! ## Temp directory eviction (lines 505 to 536) -/

/-- One directory entry as seen by cleanTempDirectory: its name, its
    modification time, and whether the per-file stat and unlink calls
    succeed (a false flag models the corresponding call throwing). -/
structure FileEntry where
  name : String
  mtime : Nat
  statOk : Bool
  unlinkOk : Bool
deriving DecidableEq, Repr

/-- The per-file sweep of cleanTempDirectory: files without the
    viewonce_ marker are skipped; a throwing stat is swallowed and the
    file kept; a file strictly older than maxAge is unlinked, a throwing
    unlink being swallowed as well; younger files are kept.  Returns the
    entries remaining in the directory, in order. -/
def sweepFiles (now maxAge : Nat) : List FileEntry → List FileEntry
  | [] => []
  | f :: rest =>
    let keepRest := sweepFiles now maxAge rest
    if startsWithVO f.name = false then f :: keepRest
    else if f.statOk = false then f :: keepRest
    else if now - f.mtime > maxAge then
      if f.unlinkOk then keepRest else f :: keepRest
    else f :: keepRest

/-- cleanTempDirectory: a missing directory is a no-op; otherwise the
    listing is swept file by file.  The directory state is an optional
    entry list (none models a directory that does not exist). -/
def cleanTempDirectory (dir : Option (List FileEntry)) (maxAge now : Nat) :
    Option (List FileEntry) :=
  match dir with
  | none => none
  | some files => some (sweepFiles now maxAge files)

/-! ## Configuration update and module construction -/

/-- The object spread update of updateConfig (lines 555 to 558), on the
    association-list representation of the config object: keys of the old
    object keep their position, their values overridden by the new object
    where present; keys only in the new object are appended in order. -/
def spreadMerge (old nw : List (String × JVal)) : List (String × JVal) :=
  old.map (fun p =>
    match lookupField nw p.1 with
    | some v => (p.1, v)
    | none => p) ++
  nw.filter (fun q => (lookupField old q.1).isNone)

/-- updateConfig: this.config becomes the spread of the old config with
    the partial new config. -/
def updateConfig (cfg nw : List (String × JVal)) : List (String × JVal) :=
  spreadMerge cfg nw

/-- The module configuration assembled by the ViewOnceModule constructor
    (lines 24 to 32) from the configuration store: it reads exactly the
    keys autoForward, saveToTemp, tempDir, skipOwner, logActivity and
    maxTempAge under viewonce, with their defaults, and a fixed list of
    supported types.  No group or private enable flag is read. -/
def mkModuleConfig (store : JVal) : VOConfig :=
  { autoForward := truthy (configGet store "viewonce.autoForward" (JVal.jbool true))
    saveToTemp := truthy (configGet store "viewonce.saveToTemp" (JVal.jbool true))
    tempDir := asStr (configGet store "viewonce.tempDir" (JVal.jstr "./temp"))
    skipOwner := truthy (configGet store "viewonce.skipOwner" (JVal.jbool true))
    logActivity := truthy (configGet store "viewonce.logActivity" (JVal.jbool true))
    maxTempAge := asNat (configGet store "viewonce.maxTempAge" (JVal.jnum 86400000))
    supportedTypes := ["image", "video", "audio"] }

/-- Modelled from the spec: the sanitization of a conversation identifier
    described by the specification (non-alphanumeric characters replaced
    by an underscore).  No sanitization routine exists in
    src/new/viewonce.js; this definition follows the words of the spec and
    of claim C3, for comparison against the filename the code builds. -/
def sanitizeId (s : String) : String :=
  String.mk (s.toList.map (fun c => if c.isAlphanum then c else '_'))

/-- Modelled from the spec: the temp filename layout asserted by claim C3,
    namely the fixed marker viewonce_, then the sanitized conversation
    identifier, then the creation timestamp, then the payload's suggested
    filename, in that order. -/
def claimedFilenameC3 (chatId : String) (now : Nat) (suggested : String) :
    String :=
  "viewonce_" ++ sanitizeId chatId ++ "_" ++ toString now ++ "_" ++ suggested

/-! ## Concrete inputs used by the closed statements below -/

/-- Zeroed statistics, the state of a freshly constructed module. -/
def stats0 : Stats := { processed := 0, forwarded := 0, saved := 0, errors := 0 }

/-- The default module configuration with saving and forwarding enabled. -/
def cfgBothOn : VOConfig :=
  { autoForward := true, saveToTemp := true, tempDir := "./temp",
    skipOwner := true, logActivity := true, maxTempAge := 86400000,
    supportedTypes := ["image", "video", "audio"] }

/-- Effects in which every external call succeeds; the codec appends one
    byte per conversion, so repeated conversions are distinguishable. -/
def effAllOk : RunEff :=
  { downloadResult := Except.ok (some [1, 2, 3])
    execErr := fun _ => none
    readBack := fun b => Except.ok (b ++ [7])
    writeTempOk := true
    sendErr := none }

/-- Effects in which the media download throws a transport error. -/
def effDownloadThrows : RunEff :=
  { downloadResult := Except.error "network error"
    execErr := fun _ => none
    readBack := fun b => Except.ok b
    writeTempOk := true
    sendErr := none }

/-- Effects in which the ffmpeg child process fails. -/
def c4effProcFail : RunEff :=
  { downloadResult := Except.ok none
    execErr := fun _ => some "ffmpeg exited with code 1"
    readBack := fun b => Except.ok b
    writeTempOk := true
    sendErr := none }

/-- An envelope carrying only a dedicated view-once wrapper node, with no
    direct media node: one of the wire-format variants named by the spec. -/
def wrapperOnlyMsg : Msg :=
  { key := { remoteJid := "12345@s.whatsapp.net", participant := none }
    message := some
      { imageMessage := none
        videoMessage := none
        audioMessage := none
        viewOnceMessage := true
        viewOnceMessageV2 := false
        viewOnceMessageV2Extension := false } }

/-- An envelope with a direct image node flagged view-once. -/
def imgVOMsg : Msg :=
  { key := { remoteJid := "12345@s.whatsapp.net", participant := none }
    message := some
      { imageMessage := some
          { viewOnce := true, mimetype := some "image/jpeg", caption := none }
        videoMessage := none
        audioMessage := none
        viewOnceMessage := false
        viewOnceMessageV2 := false
        viewOnceMessageV2Extension := false } }

/-- A downloaded image payload. -/
def c3media : MediaData :=
  { type := "image", buffer := [1, 2, 3], mimetype := "image/jpeg",
    caption := "", filename := "image_5.jpg" }

/-- A configuration store in which the group enable flag of the spec is
    explicitly off. -/
def c5store : JVal :=
  JVal.jobj [("viewonce", JVal.jobj [("enableInGroups", JVal.jbool false)])]

/-- A view-once image envelope from a group conversation (the group
    suffix convention on the conversation identifier). -/
def c5groupMsg : Msg :=
  { key := { remoteJid := "12036304@g.us", participant := some "5@s.whatsapp.net" }
    message := some
      { imageMessage := some
          { viewOnce := true, mimetype := some "image/jpeg", caption := none }
        videoMessage := none
        audioMessage := none
        viewOnceMessage := false
        viewOnceMessageV2 := false
        viewOnceMessageV2Extension := false } }

/-- A downloaded image payload for the forwarding statements. -/
def c5media : MediaData :=
  { type := "image", buffer := [9, 9], mimetype := "image/jpeg",
    caption := "", filename := "image_7.jpg" }

/-- A directory mixing a stale marked file, an unmarked file and a fresh
    marked file, all stat and unlink calls succeeding. -/
def c6files : List FileEntry :=
  [ { name := "viewonce_a.jpg", mtime := 14, statOk := true, unlinkOk := true },
    { name := "notes.txt", mtime := 0, statOk := true, unlinkOk := true },
    { name := "viewonce_new.jpg", mtime := 15, statOk := true, unlinkOk := true } ]

/-- An empty configuration store that has never been saved. -/
def c9store0 : ConfigStore := { data := JVal.jobj [], disk := none }

/-- The store obtained from the empty store by setting the dotted key
    viewonce.autoForward to false with a succeeding backing write. -/
def c9store1 : ConfigStore :=
  { data := JVal.jobj
      [("viewonce", JVal.jobj [("autoForward", JVal.jbool false)])]
    disk := some (JVal.jobj
      [("viewonce", JVal.jobj [("autoForward", JVal.jbool false)])]) }

/-- The store obtained from the empty store by the same set when the
    backing write throws and is swallowed: the in-memory mapping is
    updated but nothing has ever reached the backing file. -/
def c9storeStale : ConfigStore :=
  { data := JVal.jobj
      [("viewonce", JVal.jobj [("autoForward", JVal.jbool false)])]
    disk := none }

/-! ## Helper lemmas -/

/-- Reading back the key just assigned by putField yields the assigned
    value. -/
theorem lookup_putField (fs : List (String × JVal)) (k : String) (v : JVal) :
    lookupField (putField fs k v) k = some v := by
  induction fs with
  | nil => simp [putField, lookupField]
  | cons p rest ih =>
    obtain ⟨k0, v0⟩ := p
    by_cases h : k0 = k
    · simp [putField, lookupField, h]
    · simp [putField, lookupField, h, ih]

/-- After a successful set walk, the get walk over the same segments
    finds the assigned value. -/
theorem getLoop_setLoop :
    ∀ (ks : List String) (cur value res : JVal),
      setLoop cur ks value = some res → getLoop res ks = some value := by
  intro ks
  induction ks with
  | nil =>
    intro cur value res h
    cases cur <;> simp [setLoop] at h
  | cons k tail ih =>
    intro cur value res h
    cases tail with
    | nil =>
      cases cur <;> simp [setLoop] at h
      case jobj fs =>
        subst h
        simp [getLoop, lookup_putField]
    | cons k2 rest =>
      cases cur <;> simp only [setLoop] at h <;>
        try exact absurd h (by simp)
      case jobj fs =>
        cases hc : setLoop (childFor fs k) (k2 :: rest) value with
        | none => rw [hc] at h; exact absurd h (by simp)
        | some child2 =>
          rw [hc] at h
          simp only [Option.some.injEq] at h
          subst h
          simp [getLoop, lookup_putField]
          exact ih _ value child2 hc

/-- A path that is not present makes the get walk fail. -/
theorem pathPresent_false_getLoop :
    ∀ (ks : List String) (c : JVal),
      pathPresent c ks = false → getLoop c ks = none := by
  intro ks
  induction ks with
  | nil => intro c h; simp [pathPresent] at h
  | cons k rest ih =>
    intro c h
    cases c <;> simp [pathPresent, getLoop] at h ⊢
    case jobj fs =>
      cases hl : lookupField fs k with
      | none => simp [hl]
      | some v2 =>
        rw [hl] at h
        simp [hl]
        exact ih v2 h

/-- First-match lookup over a concatenation. -/
theorem lookupField_append (a b : List (String × JVal)) (k : String) :
    lookupField (a ++ b) k =
      (match lookupField a k with
       | some v => some v
       | none => lookupField b k) := by
  induction a with
  | nil => simp [lookupField]
  | cons p rest ih =>
    obtain ⟨k0, v0⟩ := p
    by_cases h : k0 = k <;> simp [lookupField, h, ih]

/-- The override map of the spread leaves a key untouched when the new
    object does not contain it. -/
theorem lookupField_map_override (old nw : List (String × JVal)) (k : String)
    (h : lookupField nw k = none) :
    lookupField (old.map (fun p =>
      match lookupField nw p.1 with
      | some v => (p.1, v)
      | none => p)) k = lookupField old k := by
  induction old with
  | nil => simp [lookupField]
  | cons p rest ih =>
    obtain ⟨k0, v0⟩ := p
    by_cases hk : k0 = k
    · subst hk
      simp only [List.map_cons]
      rw [h]
      simp [lookupField]
    · simp only [List.map_cons]
      cases hl : lookupField nw k0 <;> simp [lookupField, hk, ih]

/-- Filtering cannot make an absent key appear. -/
theorem lookupField_filter_none (nw : List (String × JVal))
    (p : String × JVal → Bool) (k : String)
    (h : lookupField nw k = none) :
    lookupField (nw.filter p) k = none := by
  induction nw with
  | nil => simp [lookupField]
  | cons q rest ih =>
    obtain ⟨k0, v0⟩ := q
    by_cases hk : k0 = k
    · subst hk
      simp [lookupField] at h
    · simp only [lookupField, if_neg hk] at h
      by_cases hp : p (k0, v0) <;> simp [List.filter, hp, lookupField, hk, ih h]

/-- The sweep keeps exactly the entries that are unmarked, or whose stat
    throws, or that are young enough, or whose unlink throws. -/
theorem sweepFiles_eq_filter (now maxAge : Nat) (files : List FileEntry) :
    sweepFiles now maxAge files =
      files.filter (fun f =>
        !(startsWithVO f.name && f.statOk &&
          decide (now - f.mtime > maxAge) && f.unlinkOk)) := by
  induction files with
  | nil => simp [sweepFiles]
  | cons f rest ih =>
    simp only [sweepFiles, ih, List.filter]
    cases hn : startsWithVO f.name <;>
      cases hs : f.statOk <;>
      cases hu : f.unlinkOk <;>
      by_cases ha : now - f.mtime > maxAge <;>
      simp [hn, hs, hu, ha]

/-- When the chat-client download throws or yields a null buffer,
    downloadViewOnceMedia returns null. -/
theorem download_fails_none (m : Option Msg) (eff : RunEff) (now : Nat)
    (h : ∀ b, eff.downloadResult ≠ Except.ok (some b)) :
    downloadViewOnceMedia m eff now = none := by
  unfold downloadViewOnceMedia
  repeat' split
  any_goals rfl
  rename_i buffer heq
  exact absurd heq (h buffer)

/-! ## Claim C1: view-once detection -/

/-- C1 counterexample: an envelope carrying only a dedicated view-once
    wrapper node, with no direct media node, is not detected.  The claim
    states that isViewOnceMessage returns true for a wrapper-typed
    envelope; the code returns false for it. -/
theorem c1_wrapper_not_detected :
    (match wrapperOnlyMsg.message with
     | some c => c.viewOnceMessage
     | none => false) = true ∧
    isViewOnceMessage (some wrapperOnlyMsg) = false :=
  ⟨rfl, rfl⟩

/-- C1 amended: isViewOnceMessage returns true exactly when one of the
    three direct media nodes carries a true viewOnce flag; the wrapper
    variants are never consulted, and an envelope holding only wrapper
    nodes is never detected, whichever wrappers are present. -/
theorem c1_direct_flag_only :
    (∀ (k : MsgKey) (c : MessageContent),
        isViewOnceMessage (some (Msg.mk k (some c))) =
          (nodeVO c.imageMessage || nodeVO c.videoMessage ||
           nodeVO c.audioMessage)) ∧
    (∀ (k : MsgKey) (w1 w2 w3 : Bool),
        isViewOnceMessage (some (Msg.mk k (some
          (MessageContent.mk none none none w1 w2 w3)))) = false) :=
  ⟨fun _ _ => rfl, fun _ _ _ _ => rfl⟩

/-! ## Claim C2: download failure handling -/

/-- C2 counterexample: a view-once image envelope whose download throws.
    The claim states that processViewOnce then terminates with a
    populated result carrying success false and an error message and
    that the error counter is incremented; the code instead returns no
    result at all and leaves every counter unchanged. -/
theorem c2_download_failure_silent :
    processViewOnce (some imgVOMsg) cfgBothOn effDownloadThrows 5 stats0 =
      (none, stats0, []) ∧ stats0.errors = 0 :=
  ⟨rfl, rfl⟩

/-- C2 amended: for every view-once envelope whose media download fails
    (a thrown transport error or a null buffer), processViewOnce
    terminates silently: no pipeline result is returned, the statistics
    are unchanged, and no later stage runs (the action trace is empty,
    so nothing is transcoded, persisted or forwarded). -/
theorem c2_download_failure_aborts :
    ∀ (m : Option Msg) (cfg : VOConfig) (eff : RunEff) (now : Nat)
      (stats : Stats),
      isViewOnceMessage m = true →
      (∀ b, eff.downloadResult ≠ Except.ok (some b)) →
      processViewOnce m cfg eff now stats = (none, stats, []) := by
  intro m cfg eff now stats hvo hdl
  have hd := download_fails_none m eff now hdl
  unfold processViewOnce
  rw [hvo]
  cases m with
  | none => simp [isViewOnceMessage] at hvo
  | some msg =>
    simp only [Bool.true_eq_false, if_false]
    rw [hd]

/-- C2 witness: the amended statement applied to the concrete envelope
    and failing download effects. -/
theorem c2_download_failure_aborts_witness :
    isViewOnceMessage (some imgVOMsg) = true ∧
    processViewOnce (some imgVOMsg) cfgBothOn effDownloadThrows 5 stats0 =
      (none, stats0, []) :=
  ⟨rfl, c2_download_failure_aborts (some imgVOMsg) cfgBothOn effDownloadThrows
    5 stats0 rfl (fun _ h => Except.noConfusion h)⟩

/-! ## Claim C3: temp filename layout -/

/-- C3 counterexample: for a concrete payload saved with a concrete
    conversation identifier, the written filename is the fixed marker
    followed directly by the timestamp and the suggested filename; it
    differs from the layout the claim asserts, which inserts the
    sanitized conversation identifier after the marker. -/
theorem c3_filename_ignores_chat :
    (saveToTemp c3media "123@g.us" cfgBothOn effAllOk 7 stats0).1 =
      some "./temp/viewonce_7_image_5.jpg" ∧
    claimedFilenameC3 "123@g.us" 7 "image_5.jpg" =
      "viewonce_123_g_us_7_image_5.jpg" ∧
    ("viewonce_7_image_5.jpg" : String) ≠ "viewonce_123_g_us_7_image_5.jpg" :=
  ⟨rfl, rfl, by decide⟩

/-- C3 amended: the filename written by saveToTemp consists of the fixed
    marker viewonce_, the creation timestamp and the payload's suggested
    filename, in that order, under the configured temp directory; the
    conversation identifier passed to saveToTemp does not occur in it
    (the right-hand side does not depend on chatId). -/
theorem c3_filename_layout :
    ∀ (md : MediaData) (chatId : String) (cfg : VOConfig) (eff : RunEff)
      (now : Nat) (stats : Stats),
      (saveToTemp md chatId cfg eff now stats).1 =
        (if eff.writeTempOk then
          some (cfg.tempDir ++ "/" ++
            ("viewonce_" ++ toString now ++ "_" ++ md.filename))
        else none) := by
  intro md chatId cfg eff now stats
  by_cases h : eff.writeTempOk <;> simp [saveToTemp, h]

/-! ## Claim C4: temporary file release in the audio transcoder -/

/-- C4 counterexample: when the ffmpeg process fails on an ogg input,
    the input temporary file is removed but the output temporary file is
    not; the claim asserts both are deleted on every exit path. -/
theorem c4_output_not_removed_on_failure :
    processAudioViewOnce [1, 2] "audio/ogg" c4effProcFail 3 =
      (Except.error "ffmpeg exited with code 1",
       [Action.createFile "/tmp/input_3.ogg" [1, 2],
        Action.execFfmpeg "/tmp/input_3.ogg" "/tmp/output_3.mp3",
        Action.removeFile "/tmp/input_3.ogg"]) ∧
    Action.removeFile "/tmp/output_3.mp3" ∉
      (processAudioViewOnce [1, 2] "audio/ogg" c4effProcFail 3).2 :=
  ⟨rfl, by decide⟩

/-- C4 amended: on an ogg input the transcoder removes the input
    temporary file on every exit path, and in particular removes it
    before propagating a process failure; the output temporary file is
    removed only on the success path, after a successful read-back, and
    is not removed on the process-failure or read-failure paths (their
    traces contain exactly one removal, that of the input file). -/
theorem c4_temp_file_release :
    ∀ (buffer : List Nat) (mimetype : String) (eff : RunEff) (now : Nat),
      containsOgg mimetype = true →
      (∀ e, eff.execErr buffer = some e →
        processAudioViewOnce buffer mimetype eff now =
          (Except.error e,
           [Action.createFile (inputPathOf now) buffer,
            Action.execFfmpeg (inputPathOf now) (outputPathOf now),
            Action.removeFile (inputPathOf now)])) ∧
      (∀ e, eff.execErr buffer = none → eff.readBack buffer = Except.error e →
        processAudioViewOnce buffer mimetype eff now =
          (Except.error e,
           [Action.createFile (inputPathOf now) buffer,
            Action.execFfmpeg (inputPathOf now) (outputPathOf now),
            Action.removeFile (inputPathOf now)])) ∧
      (∀ out, eff.execErr buffer = none → eff.readBack buffer = Except.ok out →
        processAudioViewOnce buffer mimetype eff now =
          (Except.ok out,
           [Action.createFile (inputPathOf now) buffer,
            Action.execFfmpeg (inputPathOf now) (outputPathOf now),
            Action.removeFile (inputPathOf now),
            Action.removeFile (outputPathOf now)])) := by
  intro buffer mimetype eff now hogg
  refine ⟨?_, ?_, ?_⟩
  · intro e h1
    simp [processAudioViewOnce, hogg, h1]
  · intro e h1 h2
    simp [processAudioViewOnce, hogg, h1, h2]
  · intro out h1 h2
    simp [processAudioViewOnce, hogg, h1, h2]

/-- C4 witness: the success branch of the amended statement at a
    concrete ogg input, with both temporary files removed. -/
theorem c4_temp_file_release_witness :
    containsOgg "audio/ogg" = true ∧
    processAudioViewOnce [1, 2] "audio/ogg" effAllOk 3 =
      (Except.ok [1, 2, 7],
       [Action.createFile (inputPathOf 3) [1, 2],
        Action.execFfmpeg (inputPathOf 3) (outputPathOf 3),
        Action.removeFile (inputPathOf 3),
        Action.removeFile (outputPathOf 3)]) :=
  ⟨by decide,
   (c4_temp_file_release [1, 2] "audio/ogg" effAllOk 3 (by decide)).2.2
     [1, 2, 7] rfl rfl⟩

/-! ## Claim C5: chat-kind flags in forwarding -/

/-- C5 counterexample: with a configuration store in which the group
    enable flag named by the claim is off, the module configuration
    built by the constructor (which never reads that key) still has
    auto-forward on, and forwardViewOnce on a group conversation sends
    the media and returns true; the claim asserts the media is not sent
    and the result is false. -/
theorem c5_no_group_flag :
    truthy (configGet c5store "viewonce.enableInGroups" (JVal.jbool true)) =
      false ∧
    (mkModuleConfig c5store).autoForward = true ∧
    forwardViewOnce c5groupMsg c5media effAllOk 7 stats0 =
      (true, { stats0 with forwarded := 1 },
       [Action.sentMessage "12036304@g.us"
          (OutContent.image [9, 9] "👁️ ViewOnce Image Revealed"
            "image/jpeg")]) :=
  ⟨rfl, rfl, rfl⟩

/-- C5 amended: forwardViewOnce neither inspects the conversation
    identifier's suffix nor consults any per-chat-kind enable flag (none
    exists in the module configuration); for every supported media kind
    and every conversation identifier it attempts the send: on send
    success it returns true, increments the forwarded counter and a send
    action to the originating conversation appears in the trace; on send
    failure it returns false and increments the error counter. -/
theorem c5_forward_ignores_chat_kind :
    ∀ (msg : Msg) (md : MediaData) (eff : RunEff) (now : Nat) (stats : Stats),
      (md.type = "image" ∨ md.type = "video" ∨ md.type = "audio") →
      ((eff.sendErr = none →
          (forwardViewOnce msg md eff now stats).1 = true ∧
          (forwardViewOnce msg md eff now stats).2.1 =
            { stats with forwarded := stats.forwarded + 1 } ∧
          ∃ c, Action.sentMessage msg.key.remoteJid c ∈
                 (forwardViewOnce msg md eff now stats).2.2) ∧
       (∀ e, eff.sendErr = some e →
          (forwardViewOnce msg md eff now stats).1 = false ∧
          (forwardViewOnce msg md eff now stats).2.1 =
            { stats with errors := stats.errors + 1 })) := by
  intro msg md eff now stats htype
  rcases htype with ht | ht | ht
  · constructor
    · intro hs
      refine ⟨?_, ?_, ?_⟩ <;> simp [forwardViewOnce, ht, hs]
    · intro e hs
      constructor <;> simp [forwardViewOnce, ht, hs]
  · constructor
    · intro hs
      refine ⟨?_, ?_, ?_⟩ <;> simp [forwardViewOnce, ht, hs]
    · intro e hs
      constructor <;> simp [forwardViewOnce, ht, hs]
  · constructor
    · intro hs
      refine ⟨?_, ?_, ?_⟩ <;> simp [forwardViewOnce, ht, hs]
    · intro e hs
      constructor <;> simp [forwardViewOnce, ht, hs]

/-- C5 witness: the amended statement applied to the concrete group
    conversation, supported image payload and succeeding send. -/
theorem c5_forward_ignores_chat_kind_witness :
    (c5media.type = "image" ∨ c5media.type = "video" ∨
     c5media.type = "audio") ∧
    (forwardViewOnce c5groupMsg c5media effAllOk 7 stats0).1 = true :=
  ⟨Or.inl rfl,
   ((c5_forward_ignores_chat_kind c5groupMsg c5media effAllOk 7 stats0
      (Or.inl rfl)).1 rfl).1⟩

/-! ## Claim C6: temp directory eviction -/

/-- C6: a missing directory makes the sweep a no-op; when every per-file
    stat and unlink succeeds, the sweep removes exactly the files whose
    name starts with the viewonce_ marker and whose age (now minus
    modification time) strictly exceeds maxAge, keeping all other files
    in order; and in general a per-file stat or unlink failure only
    keeps that file, without aborting the sweep of the remaining
    files. -/
theorem c6_evict_exact :
    (∀ (maxAge now : Nat), cleanTempDirectory none maxAge now = none) ∧
    (∀ (files : List FileEntry) (maxAge now : Nat),
        (∀ f ∈ files, f.statOk = true ∧ f.unlinkOk = true) →
        cleanTempDirectory (some files) maxAge now =
          some (files.filter (fun f =>
            !(startsWithVO f.name && decide (now - f.mtime > maxAge))))) ∧
    (∀ (files : List FileEntry) (maxAge now : Nat),
        cleanTempDirectory (some files) maxAge now =
          some (files.filter (fun f =>
            !(startsWithVO f.name && f.statOk &&
              decide (now - f.mtime > maxAge) && f.unlinkOk)))) := by
  refine ⟨fun _ _ => rfl, ?_, ?_⟩
  · intro files maxAge now h
    show some (sweepFiles now maxAge files) = _
    rw [sweepFiles_eq_filter]
    congr 1
    apply List.filter_congr
    intro f hf
    rcases h f hf with ⟨hs, hu⟩
    rw [hs, hu]
    cases startsWithVO f.name <;> cases (decide (now - f.mtime > maxAge)) <;> rfl
  · intro files maxAge now
    show some (sweepFiles now maxAge files) = _
    rw [sweepFiles_eq_filter]

/-- C6 witness: eviction with threshold zero on a mixed directory: the
    marked file created moments ago (age one) is removed, the unmarked
    file is untouched although old, and a marked file of age zero stays
    because its age does not strictly exceed the threshold. -/
theorem c6_evict_exact_witness :
    cleanTempDirectory (some c6files) 0 15 =
      some [ { name := "notes.txt", mtime := 0, statOk := true,
               unlinkOk := true },
             { name := "viewonce_new.jpg", mtime := 15, statOk := true,
               unlinkOk := true } ] := by
  have h := c6_evict_exact.2.1 c6files 0 15 (by decide)
  rw [h]
  rfl

/-! ## Claim C7: transcoder identity on non-ogg input -/

/-- C7: for every byte sequence and every MIME type not containing ogg,
    the transcoder resolves with exactly the input bytes and performs no
    filesystem action: the identity transform. -/
theorem c7_transcode_identity :
    ∀ (buffer : List Nat) (mimetype : String) (eff : RunEff) (now : Nat),
      containsOgg mimetype = false →
      processAudioViewOnce buffer mimetype eff now = (Except.ok buffer, []) := by
  intro buffer mimetype eff now h
  simp [processAudioViewOnce, h]

/-- C7 witness: the round-trip instance of the claim at the mpeg audio
    MIME type. -/
theorem c7_transcode_identity_witness :
    containsOgg "audio/mpeg" = false ∧
    processAudioViewOnce [1, 2, 3] "audio/mpeg" effAllOk 0 =
      (Except.ok [1, 2, 3], []) :=
  ⟨by decide, c7_transcode_identity [1, 2, 3] "audio/mpeg" effAllOk 0 (by decide)⟩

/-! ## Claim C8: double transcode of ogg audio on the automatic path -/

/-- C8: in the automatic pipeline with auto-forward enabled, an ogg
    audio payload is transcoded twice: processViewOnce replaces the
    payload bytes with the first conversion (the returned result carries
    the once-converted bytes), and forwardViewOnce runs the transcoder
    again on those bytes under the unchanged ogg MIME type, so the sent
    audio carries the twice-converted bytes. -/
theorem c8_double_transcode :
    ∀ (jid mime : String) (b0 b1 b2 : List Nat) (cfg : VOConfig)
      (eff : RunEff) (now : Nat) (stats : Stats),
      containsOgg mime = true → mime ≠ "" →
      eff.downloadResult = Except.ok (some b0) →
      eff.execErr b0 = none → eff.readBack b0 = Except.ok b1 →
      eff.execErr b1 = none → eff.readBack b1 = Except.ok b2 →
      eff.sendErr = none → cfg.autoForward = true →
      (Action.sentMessage jid (OutContent.audio b2 mime) ∈
        (processViewOnce
          (some (Msg.mk (MsgKey.mk jid none) (some
            (MessageContent.mk none none
              (some (MediaNode.mk true (some mime) none))
              false false false))))
          cfg eff now stats).2.2) ∧
      (∃ r md, (processViewOnce
          (some (Msg.mk (MsgKey.mk jid none) (some
            (MessageContent.mk none none
              (some (MediaNode.mk true (some mime) none))
              false false false))))
          cfg eff now stats).1 = some r ∧
        r.mediaData = some md ∧ md.buffer = b1) := by
  intro jid mime b0 b1 b2 cfg eff now stats hogg hne hdl he0 hr0 he1 hr1 hsend hfwd
  have hdown : downloadViewOnceMedia
      (some (Msg.mk (MsgKey.mk jid none) (some
        (MessageContent.mk none none
          (some (MediaNode.mk true (some mime) none)) false false false))))
      eff now =
      some { type := "audio", buffer := b0,
             mimetype := strOr (some mime) ("audio" ++ "/unknown"),
             caption := strOr none "",
             filename := generateFilename "audio" (some mime) now } := by
    simp [downloadViewOnceMedia, getViewOnceType, nodeVO, mediaNodeFor, hdl]
  have hmime : strOr (some mime) ("audio" ++ "/unknown") = mime := by
    simp [strOr, hne]
  rw [hmime] at hdown
  have hpa0 : processAudioViewOnce b0 mime eff now =
      (Except.ok b1,
       [Action.createFile (inputPathOf now) b0,
        Action.execFfmpeg (inputPathOf now) (outputPathOf now),
        Action.removeFile (inputPathOf now),
        Action.removeFile (outputPathOf now)]) := by
    simp [processAudioViewOnce, hogg, he0, hr0]
  have hpa1 : processAudioViewOnce b1 mime eff now =
      (Except.ok b2,
       [Action.createFile (inputPathOf now) b1,
        Action.execFfmpeg (inputPathOf now) (outputPathOf now),
        Action.removeFile (inputPathOf now),
        Action.removeFile (outputPathOf now)]) := by
    simp [processAudioViewOnce, hogg, he1, hr1]
  have hfwdeq : ∀ (st : Stats),
      forwardViewOnce
        (Msg.mk (MsgKey.mk jid none) (some
          (MessageContent.mk none none
            (some (MediaNode.mk true (some mime) none)) false false false)))
        { type := "audio", buffer := b1, mimetype := mime,
          caption := strOr none "",
          filename := generateFilename "audio" (some mime) now }
        eff now st =
      (true, { st with forwarded := st.forwarded + 1 },
       [Action.createFile (inputPathOf now) b1,
        Action.execFfmpeg (inputPathOf now) (outputPathOf now),
        Action.removeFile (inputPathOf now),
        Action.removeFile (outputPathOf now),
        Action.sentMessage jid (OutContent.audio b2 mime)]) := by
    intro st
    simp [forwardViewOnce, hpa1, hsend, strOrS, hne]
  constructor
  · unfold processViewOnce
    rw [hdown]
    simp only [isViewOnceMessage, nodeVO, Bool.or_true, Bool.true_or,
      Bool.true_eq_false, if_false]
    simp only [hpa0, hfwd, if_true]
    by_cases hsave : cfg.saveToTemp <;>
      simp [hsave, saveToTemp, hfwdeq]
  · unfold processViewOnce
    rw [hdown]
    simp only [isViewOnceMessage, nodeVO, Bool.or_true, Bool.true_or,
      Bool.true_eq_false, if_false]
    simp only [hpa0, hfwd, if_true]
    by_cases hsave : cfg.saveToTemp <;>
      simp [hsave, saveToTemp, hfwdeq]

/-- C8 witness: the double transcode at concrete inputs; each conversion
    appends one byte, and the sent audio carries the twice-converted
    bytes. -/
theorem c8_double_transcode_witness :
    containsOgg "audio/ogg" = true ∧
    Action.sentMessage "999@g.us"
        (OutContent.audio [1, 2, 3, 7, 7] "audio/ogg") ∈
      (processViewOnce
        (some (Msg.mk (MsgKey.mk "999@g.us" none) (some
          (MessageContent.mk none none
            (some (MediaNode.mk true (some "audio/ogg") none))
            false false false))))
        cfgBothOn effAllOk 5 stats0).2.2 :=
  ⟨by decide,
   (c8_double_transcode "999@g.us" "audio/ogg" [1, 2, 3] [1, 2, 3, 7]
      [1, 2, 3, 7, 7] cfgBothOn effAllOk 5 stats0 (by decide) (by decide)
      rfl rfl rfl rfl rfl rfl rfl).1⟩

/-! ## Claim C9: configuration store laws -/

/-- C9 counterexample: a completed Config.set whose backing write throws
    and is swallowed by saveConfig: the in-memory mapping is updated but
    the backing store still holds nothing, so the set did not persist
    the mapping; the claim asserts every Set persists the mapping to the
    backing store. -/
theorem c9_set_may_not_persist :
    configSet c9store0 "viewonce.autoForward" (JVal.jbool false) false =
      some c9storeStale ∧
    c9storeStale.disk ≠ some c9storeStale.data :=
  ⟨rfl, fun h => Option.noConfusion h⟩

/-- C9 amended: after a completed Config.set of a dotted-path key,
    Config.get of the same key returns the assigned value; the set
    attempts to persist the whole mapping to the backing store,
    succeeding exactly when the backing write does: on write success the
    backing store holds the new mapping, while a swallowed write failure
    leaves the backing store as it was.  Config.get of a key not present
    in the mapping returns the supplied default. -/
theorem c9_config_roundtrip :
    (∀ (store : ConfigStore) (key : String) (value dflt : JVal)
       (writeOk : Bool) (st2 : ConfigStore),
        configSet store key value writeOk = some st2 →
        configGet st2.data key dflt = value ∧
        (writeOk = true → st2.disk = some st2.data) ∧
        (writeOk = false → st2.disk = store.disk)) ∧
    (∀ (cfg : JVal) (key : String) (dflt : JVal),
        pathPresent cfg (splitDot key) = false →
        configGet cfg key dflt = dflt) := by
  constructor
  · intro store key value dflt writeOk st2 h
    unfold configSet at h
    cases hs : setLoop store.data (splitDot key) value with
    | none => rw [hs] at h; exact absurd h (by simp)
    | some d2 =>
      rw [hs] at h
      simp only [Option.some.injEq] at h
      subst h
      refine ⟨?_, ?_, ?_⟩
      · unfold configGet
        rw [getLoop_setLoop (splitDot key) store.data value d2 hs]
      · intro hw
        simp [hw]
      · intro hw
        simp [hw]
  · intro cfg key dflt h
    unfold configGet
    rw [pathPresent_false_getLoop (splitDot key) cfg h]

/-- C9 witness: setting viewonce.autoForward on the empty store with a
    succeeding backing write, reading it back, observing the persisted
    mapping, and reading an absent key with a default. -/
theorem c9_config_roundtrip_witness :
    configSet c9store0 "viewonce.autoForward" (JVal.jbool false) true =
      some c9store1 ∧
    configGet c9store1.data "viewonce.autoForward" JVal.jnull =
      JVal.jbool false ∧
    c9store1.disk = some c9store1.data ∧
    pathPresent (JVal.jobj []) (splitDot "bot.owner") = false ∧
    configGet (JVal.jobj []) "bot.owner" (JVal.jstr "fallback") =
      JVal.jstr "fallback" := by
  refine ⟨rfl, ?_, ?_, rfl, ?_⟩
  · exact (c9_config_roundtrip.1 c9store0 "viewonce.autoForward"
      (JVal.jbool false) JVal.jnull true c9store1 rfl).1
  · exact (c9_config_roundtrip.1 c9store0 "viewonce.autoForward"
      (JVal.jbool false) JVal.jnull true c9store1 rfl).2.1 rfl
  · exact c9_config_roundtrip.2 (JVal.jobj []) "bot.owner"
      (JVal.jstr "fallback") rfl

/-! ## Claim C10: partial configuration update -/

/-- C10: updateConfig merges with object-spread semantics: every
    configuration field whose key is not named in the partial argument
    keeps its previous value after the update. -/
theorem c10_update_preserves_unnamed :
    ∀ (old nw : List (String × JVal)) (k : String),
      lookupField nw k = none →
      lookupField (updateConfig old nw) k = lookupField old k := by
  intro old nw k h
  unfold updateConfig spreadMerge
  rw [lookupField_append]
  rw [lookupField_map_override old nw k h]
  cases hl : lookupField old k with
  | some v => rfl
  | none => simp [lookupField_filter_none nw _ k h]

/-- C10 witness: updating only autoForward leaves tempDir at its
    previous value. -/
theorem c10_update_preserves_unnamed_witness :
    lookupField [("autoForward", JVal.jbool false)] "tempDir" = none ∧
    lookupField (updateConfig
        [("autoForward", JVal.jbool true), ("tempDir", JVal.jstr "./temp")]
        [("autoForward", JVal.jbool false)]) "tempDir" =
      lookupField [("autoForward", JVal.jbool true),
                   ("tempDir", JVal.jstr "./temp")] "tempDir" :=
  ⟨rfl, c10_update_preserves_unnamed _ _ "tempDir" rfl⟩

end VO
